import Mathlib

/-!
# The composition root of the guest agent (`service/gcs/main.go`)

`main` is straight-line wiring code: it reads six flags, configures tracing
and the logrus standard logger, creates the runc runtime, builds the bridge
with its handler registry, chooses the bridge streams and serves.  Every
failure it checks for ends in `logrus.Fatal`, that is `os.Exit(1)`.

The embedding is a state-passing one.  The `World` holds what `main` can
change (the standard logger, the allocator of object identities) together
with the ordered list of calls `main` has made so far.  The results of the
calls into other packages (`os.OpenFile`, `logrus.ParseLevel`,
`runc.NewRuntime`, `tport.Dial`, `Bridge.ListenAndServe`) are inputs of the
model, collected in `Outcomes`.  The flags are taken as parsed by
`flag.Parse` (line 36).
-/

namespace Gcs

/-! ## Data model -/

/-- The flags declared at lines 21-26, as parsed values. -/
structure Flags where
  /-- The flag "loglevel" (default "debug"). -/
  logLevel : String
  /-- The flag "kmsgLogLevel", a Go uint. -/
  kmsgLogLevel : Nat
  /-- The flag "logfile" (default empty). -/
  logFile : String
  /-- The flag "log-format" (default "text"). -/
  logFormat : String
  /-- The flag "use-inouterr" (default false). -/
  useInOutErr : Bool
  /-- The flag "v4" (default false). -/
  v4 : Bool
  deriving DecidableEq, Repr

/-- Where the logrus standard logger writes. -/
inductive LogOutput where
  | stderr
  | file (handle : Nat)
  deriving DecidableEq, Repr

/-- The formatter of the logrus standard logger: the text formatter it starts
with, or a JSONFormatter with the given TimestampFormat. -/
inductive Formatter where
  | text
  | json (timestampFormat : String)
  deriving DecidableEq, Repr

/-- The part of the logrus standard logger that main configures. -/
structure Logger where
  output : LogOutput
  formatter : Formatter
  level : Nat
  deriving DecidableEq, Repr

/-- A trace sampler of go.opencensus.io/trace. -/
inductive Sampler where
  | alwaysSample
  | neverSample
  deriving DecidableEq, Repr

/-- The two ends handed to ListenAndServe: a standard stream of the process or
a connection returned by Dial. -/
inductive Stream where
  | stdin
  | stdout
  | conn (c : Nat)
  deriving DecidableEq, Repr

/-- The fields of bridge.Bridge that main sets (lines 89-92).  Handler holds
the identity of the mux object. -/
structure Bridge where
  Handler : Nat
  EnableV4 : Bool
  deriving DecidableEq, Repr

/-- The calls main makes into other packages, in the order it makes them, and
the fatal log call that ends the process. -/
inductive Event where
  /-- Line 40: trace.ApplyConfig with the given DefaultSampler. -/
  | applyConfig (sampler : Sampler)
  /-- Line 41: trace.RegisterExporter(&oc.LogrusExporter). -/
  | registerExporter
  /-- Line 46: os.OpenFile(path, O_WRONLY|O_CREATE|O_TRUNC, 0600). -/
  | openFile (path : String)
  /-- Line 69: logrus.ParseLevel. -/
  | parseLevel (s : String)
  /-- Line 78: logrus.Info. -/
  | info (msg : String)
  /-- Line 81: go kmsg.ReadForever(level), level being the converted flag. -/
  | kmsgReadForever (level : Nat)
  /-- Line 84: runc.NewRuntime(baseLogPath). -/
  | newRuntime (baseLogPath : String)
  /-- Line 88: bridge.NewBridgeMux(), returning the object mux. -/
  | newBridgeMux (mux : Nat)
  /-- Line 93: hcsv2.NewHost(rtime, tport). -/
  | newHost (rtime : Nat)
  /-- Line 94: b.AssignHandlers(mux, h). -/
  | assignHandlers (b : Bridge) (mux : Nat)
  /-- Line 103: tport.Dial(port). -/
  | dial (port : Nat)
  /-- Line 114: b.ListenAndServe(bridgeIn, bridgeOut). -/
  | listenAndServe (b : Bridge) (bridgeIn bridgeOut : Stream)
  /-- Lines 51, 66, 71, 86, 108, 118: a logrus Fatal call with this message. -/
  | fatal (msg : String)
  deriving DecidableEq, Repr

/-- Results of the calls main makes into other packages.  A Go error is
modelled by its message. -/
structure Outcomes where
  /-- Result of os.OpenFile on a path: a file handle or an error. -/
  openFile : String → Except String Nat
  /-- Result of logrus.ParseLevel: a level or an error. -/
  parseLevel : String → Except String Nat
  /-- Result of runc.NewRuntime on the base log path: a runtime or an error. -/
  newRuntime : String → Except String Nat
  /-- Result of tport.Dial on a port: a connection or an error. -/
  dial : Nat → Except String Nat
  /-- Result of ListenAndServe: none for a nil error. -/
  listenAndServe : Bridge → Stream → Stream → Option String

/-- What main can change, and the calls it has made so far (oldest first). -/
structure World where
  logger : Logger
  nextObj : Nat
  trace : List Event
  deriving DecidableEq, Repr

/-- Result of running a fragment of main: it falls through with a value, or
the process has ended in logrus.Fatal. -/
inductive Res (α : Type) where
  | ok (a : α) (w : World)
  | fatal (w : World)

/-- A fragment of main. -/
def Prog (α : Type) : Type := World → Res α

/-- Sequencing of fragments: a fatal exit skips the rest. -/
def Prog.bind {α β : Type} (m : Prog α) (k : α → Prog β) : Prog β := fun w =>
  match m w with
  | .ok a w1 => k a w1
  | .fatal w1 => .fatal w1

/-- The fragment that does nothing and yields a. -/
def Prog.pure {α : Type} (a : α) : Prog α := fun w => .ok a w

instance : Monad Prog where
  pure := Prog.pure
  bind := Prog.bind

/-! ## Primitive steps -/

/-- Record a call. -/
def emit (e : Event) : Prog Unit := fun w =>
  .ok () { w with trace := w.trace ++ [e] }

/-- The call logrus.Fatal (with or without fields): log the message and exit
with status 1. -/
def logFatal {α : Type} (msg : String) : Prog α := fun w =>
  .fatal { w with trace := w.trace ++ [Event.fatal msg] }

/-- The call logrus.SetOutput. -/
def setOutput (out : LogOutput) : Prog Unit := fun w =>
  .ok () { w with logger := { w.logger with output := out } }

/-- The call logrus.SetFormatter. -/
def setFormatter (fmt : Formatter) : Prog Unit := fun w =>
  .ok () { w with logger := { w.logger with formatter := fmt } }

/-- The call logrus.SetLevel. -/
def setLevel (level : Nat) : Prog Unit := fun w =>
  .ok () { w with logger := { w.logger with level := level } }

/-- The call bridge.NewBridgeMux: a fresh object. -/
def newBridgeMux : Prog Nat := fun w =>
  .ok w.nextObj
    { w with nextObj := w.nextObj + 1, trace := w.trace ++ [Event.newBridgeMux w.nextObj] }

/-- Modelled from the spec: Bridge.AssignHandlers lives in the bridge package,
which is not part of the sources at hand.  It fills the registry it is given
with the handlers of the host ("the registry populated by the Host") and
leaves the fields Handler and EnableV4 of the bridge as main set them. -/
def assignHandlers (b : Bridge) (mux : Nat) : Prog Bridge := fun w =>
  .ok b { w with trace := w.trace ++ [Event.assignHandlers b mux] }

/-! ## Constants -/

/-- The Go constant time.RFC3339Nano. -/
def RFC3339Nano : String := "2006-01-02T15:04:05.999999999Z07:00"

/-- Line 76. -/
def baseLogPath : String := "/run/gcs/c"

/-- Line 102: const commandPort uint32 = 0x40000000. -/
def commandPort : Nat := 0x40000000

/-- The conversion kmsg.LogLevel(x) of line 81.  LogLevel is declared in the
kmsg package as an unsigned 8-bit integer, so converting the Go uint of the
flag wraps modulo 256. -/
def kmsgLogLevelOf (x : Nat) : Nat := x % 2 ^ 8

/-- The logrus standard logger before main touches it: it writes to
os.Stderr with the text formatter at InfoLevel (4). -/
def stdLogger : Logger := { output := .stderr, formatter := .text, level := 4 }

/-- The state in which main starts. -/
def World.start : World := { logger := stdLogger, nextObj := 0, trace := [] }

/-! ## The blocks of main -/

/-- Lines 38-42: with v4, switch opencensus tracing on. -/
def enableTracing (f : Flags) : Prog Unit := do
  if f.v4 then
    emit (.applyConfig .alwaysSample)
    emit .registerExporter

/-- Lines 44-54: with a non-empty logfile, open it and log to it. -/
def openLogFile (f : Flags) (o : Outcomes) : Prog Unit := do
  if f.logFile ≠ "" then
    emit (.openFile f.logFile)
    match o.openFile f.logFile with
    | .error _ => logFatal "failed to create log file"
    | .ok logFileHandle => setOutput (.file logFileHandle)

/-- Lines 56-67: the switch on the log format. -/
def selectLogFormat (f : Flags) : Prog Unit :=
  if f.logFormat = "text" then
    pure ()
  else if f.logFormat = "json" then
    setFormatter (.json RFC3339Nano)
  else
    logFatal "unknown log-format"

/-- Lines 69-74: parse and set the log level. -/
def selectLogLevel (f : Flags) (o : Outcomes) : Prog Unit := do
  emit (.parseLevel f.logLevel)
  match o.parseLevel f.logLevel with
  | .error err => logFatal err
  | .ok level => setLevel level

/-- Lines 78-81: announce the start and relay the kernel log in the
background. -/
def startKmsg (f : Flags) : Prog Unit := do
  emit (.info "GCS started")
  emit (.kmsgReadForever (kmsgLogLevelOf f.kmsgLogLevel))

/-- Lines 83-87: create the runc runtime. -/
def createRuntime (o : Outcomes) : Prog Nat := do
  emit (.newRuntime baseLogPath)
  match o.newRuntime baseLogPath with
  | .error _ => logFatal "failed to initialize new runc runtime"
  | .ok rtime => pure rtime

/-- Lines 88-94: build the mux, the bridge and the host, and register the
handlers. -/
def buildBridge (f : Flags) (rtime : Nat) : Prog Bridge := do
  let mux ← newBridgeMux
  let b : Bridge := { Handler := mux, EnableV4 := f.v4 }
  emit (.newHost rtime)
  assignHandlers b mux

/-- Lines 96-112: choose the streams of the bridge. -/
def selectStreams (f : Flags) (o : Outcomes) : Prog (Stream × Stream) := do
  if f.useInOutErr then
    pure (.stdin, .stdout)
  else
    emit (.dial commandPort)
    match o.dial commandPort with
    | .error _ => logFatal "failed to dial host vsock connection"
    | .ok bridgeCon => pure (.conn bridgeCon, .conn bridgeCon)

/-- Lines 114-119: serve the bridge; an error is fatal. -/
def serve (o : Outcomes) (b : Bridge) (bridgeIn bridgeOut : Stream) : Prog Unit := do
  emit (.listenAndServe b bridgeIn bridgeOut)
  match o.listenAndServe b bridgeIn bridgeOut with
  | some _ => logFatal "failed to serve gcs service"
  | none => pure ()

/-- Lines 38-112: everything main does before it calls ListenAndServe.  It
yields the bridge and the two streams of that call. -/
def setup (f : Flags) (o : Outcomes) : Prog (Bridge × Stream × Stream) := do
  enableTracing f
  openLogFile f o
  selectLogFormat f
  selectLogLevel f o
  startKmsg f
  let rtime ← createRuntime o
  let b ← buildBridge f rtime
  let (bridgeIn, bridgeOut) ← selectStreams f o
  pure (b, bridgeIn, bridgeOut)

/-- The body of main after flag.Parse (lines 38-119). -/
def mainProg (f : Flags) (o : Outcomes) : Prog Unit := do
  let (b, bridgeIn, bridgeOut) ← setup f o
  serve o b bridgeIn bridgeOut

/-- One run of main from the start state. -/
def main (f : Flags) (o : Outcomes) : Res Unit := mainProg f o World.start

/-! ## Observations on a run -/

/-- The state in which a run ended. -/
def Res.world {α : Type} : Res α → World
  | .ok _ w => w
  | .fatal w => w

/-- The calls made during a run. -/
def Res.trace {α : Type} (r : Res α) : List Event := r.world.trace

/-- Exit status of the process: 1 after logrus.Fatal, 0 when main returns. -/
def Res.exitCode {α : Type} : Res α → Nat
  | .ok _ _ => 0
  | .fatal _ => 1

/-- Recognises a call of NewBridgeMux. -/
def Event.isNewMux : Event → Bool
  | .newBridgeMux _ => true
  | _ => false

/-- Recognises a call of AssignHandlers. -/
def Event.isAssign : Event → Bool
  | .assignHandlers _ _ => true
  | _ => false

/-- Recognises a call of Dial. -/
def Event.isDial : Event → Bool
  | .dial _ => true
  | _ => false

/-- Recognises a call of ListenAndServe. -/
def Event.isServe : Event → Bool
  | .listenAndServe _ _ _ => true
  | _ => false

/-- Recognises a call of NewRuntime. -/
def Event.isNewRuntime : Event → Bool
  | .newRuntime _ => true
  | _ => false

/-! ## The pieces of a run -/

/-- Calls made by lines 38-42. -/
def tracingEvents (f : Flags) : List Event :=
  if f.v4 then [.applyConfig .alwaysSample, .registerExporter] else []

/-- Calls made by lines 44-54 when the log file, if any, could be opened. -/
def openEvents (f : Flags) : List Event :=
  if f.logFile = "" then [] else [.openFile f.logFile]

/-- Calls made by lines 69-84 up to and including NewRuntime. -/
def bootEvents (f : Flags) : List Event :=
  [.parseLevel f.logLevel, .info "GCS started",
   .kmsgReadForever (kmsgLogLevelOf f.kmsgLogLevel),
   .newRuntime baseLogPath]

/-- Calls made by lines 88-94 when the mux is the object n. -/
def bridgeEvents (f : Flags) (rtime n : Nat) : List Event :=
  [.newBridgeMux n, .newHost rtime, .assignHandlers ⟨n, f.v4⟩ n]

/-- Lines 44-54 fall through and leave the log output out: no log file was
asked for, or the one asked for was opened. -/
inductive OpenPasses (f : Flags) (o : Outcomes) : LogOutput → Prop where
  | console (h : f.logFile = "") : OpenPasses f o .stderr
  | opened (hd : Nat) (h : f.logFile ≠ "") (ho : o.openFile f.logFile = .ok hd) :
      OpenPasses f o (.file hd)

/-- Lines 56-67 fall through and leave the formatter fm. -/
inductive FormatPasses (f : Flags) : Formatter → Prop where
  | text (h : f.logFormat = "text") : FormatPasses f .text
  | json (h : f.logFormat = "json") : FormatPasses f (.json RFC3339Nano)

/-! ## The runs of main -/

/-- The seven ways lines 38-112 can go from the start state, with the state
each one ends in. -/
inductive SetupRun (f : Flags) (o : Outcomes) : Res (Bridge × Stream × Stream) → Prop where
  | openFailed (e : String) (h1 : f.logFile ≠ "") (h2 : o.openFile f.logFile = .error e) :
      SetupRun f o (.fatal ⟨stdLogger, 0,
        tracingEvents f ++ [.openFile f.logFile, .fatal "failed to create log file"]⟩)
  | formatUnknown (out : LogOutput) (h1 : OpenPasses f o out)
      (h2 : f.logFormat ≠ "text") (h3 : f.logFormat ≠ "json") :
      SetupRun f o (.fatal ⟨⟨out, .text, 4⟩, 0,
        tracingEvents f ++ openEvents f ++ [.fatal "unknown log-format"]⟩)
  | levelFailed (out : LogOutput) (fm : Formatter) (e : String) (h1 : OpenPasses f o out)
      (h2 : FormatPasses f fm) (h3 : o.parseLevel f.logLevel = .error e) :
      SetupRun f o (.fatal ⟨⟨out, fm, 4⟩, 0,
        tracingEvents f ++ openEvents f ++ [.parseLevel f.logLevel, .fatal e]⟩)
  | runtimeFailed (out : LogOutput) (fm : Formatter) (lv : Nat) (e : String)
      (h1 : OpenPasses f o out) (h2 : FormatPasses f fm)
      (h3 : o.parseLevel f.logLevel = .ok lv) (h4 : o.newRuntime baseLogPath = .error e) :
      SetupRun f o (.fatal ⟨⟨out, fm, lv⟩, 0,
        tracingEvents f ++ openEvents f ++ bootEvents f ++
          [.fatal "failed to initialize new runc runtime"]⟩)
  | dialFailed (out : LogOutput) (fm : Formatter) (lv rt : Nat) (e : String)
      (h1 : OpenPasses f o out) (h2 : FormatPasses f fm)
      (h3 : o.parseLevel f.logLevel = .ok lv) (h4 : o.newRuntime baseLogPath = .ok rt)
      (h5 : f.useInOutErr = false) (h6 : o.dial commandPort = .error e) :
      SetupRun f o (.fatal ⟨⟨out, fm, lv⟩, 1,
        tracingEvents f ++ openEvents f ++ bootEvents f ++ bridgeEvents f rt 0 ++
          [.dial commandPort, .fatal "failed to dial host vsock connection"]⟩)
  | readyStd (out : LogOutput) (fm : Formatter) (lv rt : Nat)
      (h1 : OpenPasses f o out) (h2 : FormatPasses f fm)
      (h3 : o.parseLevel f.logLevel = .ok lv) (h4 : o.newRuntime baseLogPath = .ok rt)
      (h5 : f.useInOutErr = true) :
      SetupRun f o (.ok (⟨0, f.v4⟩, .stdin, .stdout) ⟨⟨out, fm, lv⟩, 1,
        tracingEvents f ++ openEvents f ++ bootEvents f ++ bridgeEvents f rt 0⟩)
  | readyConn (out : LogOutput) (fm : Formatter) (lv rt c : Nat)
      (h1 : OpenPasses f o out) (h2 : FormatPasses f fm)
      (h3 : o.parseLevel f.logLevel = .ok lv) (h4 : o.newRuntime baseLogPath = .ok rt)
      (h5 : f.useInOutErr = false) (h6 : o.dial commandPort = .ok c) :
      SetupRun f o (.ok (⟨0, f.v4⟩, .conn c, .conn c) ⟨⟨out, fm, lv⟩, 1,
        tracingEvents f ++ openEvents f ++ bootEvents f ++ bridgeEvents f rt 0 ++
          [.dial commandPort]⟩)

/-- The three ways main can go once lines 38-112 are known: they ended in a
fatal exit, or ListenAndServe was called and returned nil, or it was called and
returned an error. -/
inductive MainRun (f : Flags) (o : Outcomes) : Res Unit → Prop where
  | stopped (w : World) (h : SetupRun f o (.fatal w)) : MainRun f o (.fatal w)
  | served (b : Bridge) (i u : Stream) (w : World) (h : SetupRun f o (.ok (b, i, u) w))
      (hs : o.listenAndServe b i u = none) :
      MainRun f o (.ok () ⟨w.logger, w.nextObj, w.trace ++ [.listenAndServe b i u]⟩)
  | serveFailed (b : Bridge) (i u : Stream) (w : World) (e : String)
      (h : SetupRun f o (.ok (b, i, u) w)) (hs : o.listenAndServe b i u = some e) :
      MainRun f o (.fatal ⟨w.logger, w.nextObj,
        w.trace ++ [.listenAndServe b i u, .fatal "failed to serve gcs service"]⟩)

/-- The logging set-up of lines 44-74 goes through: the log file, if one is
asked for, opens, the log format is known and the log level parses. -/
def LoggingOk (f : Flags) (o : Outcomes) : Prop :=
  (f.logFile = "" ∨ ∃ h, o.openFile f.logFile = .ok h) ∧
  (f.logFormat = "text" ∨ f.logFormat = "json") ∧
  ∃ lv, o.parseLevel f.logLevel = .ok lv

/-! ## Concrete configurations -/

/-- The default values of the flags; kmsg.Warning is 4. -/
def defaultFlags : Flags :=
  { logLevel := "debug", kmsgLogLevel := 4, logFile := "", logFormat := "text",
    useInOutErr := false, v4 := false }

/-- The defaults with an unknown log format. -/
def xmlFlags : Flags := { defaultFlags with logFormat := "xml" }

/-- The defaults with a log file. -/
def fileFlags : Flags := { defaultFlags with logFile := "/run/gcs/gcs.log" }

/-- The defaults with the bridge on stdin and stdout. -/
def stdFlags : Flags := { defaultFlags with useInOutErr := true }

/-- The bridge on stdin and stdout together with a log file. -/
def stdFileFlags : Flags :=
  { defaultFlags with logFile := "/run/gcs/gcs.log", useInOutErr := true }

/-- The JSON format at level "info", logging to a file. -/
def jsonFileFlags : Flags :=
  { defaultFlags with logLevel := "info", logFile := "/run/gcs/gcs.log", logFormat := "json" }

/-- The defaults with the v4 protocol. -/
def v4Flags : Flags := { defaultFlags with v4 := true }

/-- A run in which every call into another package succeeds. -/
def allOk : Outcomes :=
  { openFile := fun _ => .ok 3
    parseLevel := fun _ => .ok 5
    newRuntime := fun _ => .ok 7
    dial := fun _ => .ok 9
    listenAndServe := fun _ _ _ => none }

/-- Only the log file cannot be opened. -/
def openFails : Outcomes := { allOk with openFile := fun _ => .error "permission denied" }

/-- Only the log level does not parse. -/
def levelFails : Outcomes :=
  { allOk with parseLevel := fun _ => .error "not a valid logrus Level" }

/-- Only the runtime cannot be created. -/
def runtimeFails : Outcomes := { allOk with newRuntime := fun _ => .error "no runc" }

/-- Only the dial fails. -/
def dialFails : Outcomes := { allOk with dial := fun _ => .error "connection refused" }

/-- Only serving fails. -/
def serveFails : Outcomes :=
  { allOk with listenAndServe := fun _ _ _ => some "bridge read failed" }

/-! ## Symbolic execution of the blocks -/

theorem bind_apply {α β : Type} (m : Prog α) (k : α → Prog β) (w : World) :
    (m >>= k) w = match m w with
      | .ok a w1 => k a w1
      | .fatal w1 => .fatal w1 := rfl

theorem pure_apply {α : Type} (a : α) (w : World) : (pure a : Prog α) w = .ok a w := rfl

theorem enableTracing_eq (f : Flags) (w : World) :
    enableTracing f w = .ok () { w with trace := w.trace ++ tracingEvents f } := by
  cases hv : f.v4 <;>
    simp [enableTracing, tracingEvents, hv, emit, bind_apply, pure_apply]

theorem openLogFile_eq (f : Flags) (o : Outcomes) (out : LogOutput) (h : OpenPasses f o out)
    (w : World) (hw : w.logger.output = .stderr) :
    openLogFile f o w = .ok () { w with logger := { w.logger with output := out },
                                        trace := w.trace ++ openEvents f } := by
  cases h with
  | console h1 => simp [openLogFile, openEvents, h1, pure_apply, ← hw]
  | opened hd h1 h2 => simp [openLogFile, openEvents, h1, h2, emit, setOutput, bind_apply]

theorem openLogFile_error (f : Flags) (o : Outcomes) (e : String) (h : f.logFile ≠ "")
    (ho : o.openFile f.logFile = .error e) (w : World) :
    openLogFile f o w = .fatal { w with trace := w.trace ++
      [.openFile f.logFile, .fatal "failed to create log file"] } := by
  simp [openLogFile, h, ho, emit, logFatal, bind_apply]

theorem openLogFile_cases (f : Flags) (o : Outcomes) :
    (∃ out, OpenPasses f o out) ∨ (f.logFile ≠ "" ∧ ∃ e, o.openFile f.logFile = .error e) := by
  by_cases h : f.logFile = ""
  · exact .inl ⟨.stderr, .console h⟩
  · cases ho : o.openFile f.logFile with
    | error e => exact .inr ⟨h, e, rfl⟩
    | ok hd => exact .inl ⟨.file hd, .opened hd h ho⟩

theorem selectLogFormat_eq (f : Flags) (fm : Formatter) (h : FormatPasses f fm) (w : World)
    (hw : w.logger.formatter = .text) :
    selectLogFormat f w = .ok () { w with logger := { w.logger with formatter := fm } } := by
  cases h with
  | text h1 => simp [selectLogFormat, h1, pure_apply, ← hw]
  | json h1 => simp [selectLogFormat, h1, setFormatter]

theorem selectLogFormat_error (f : Flags) (h1 : f.logFormat ≠ "text") (h2 : f.logFormat ≠ "json")
    (w : World) :
    selectLogFormat f w = .fatal { w with trace := w.trace ++ [.fatal "unknown log-format"] } := by
  simp [selectLogFormat, h1, h2, logFatal]

theorem selectLogFormat_cases (f : Flags) :
    (∃ fm, FormatPasses f fm) ∨ (f.logFormat ≠ "text" ∧ f.logFormat ≠ "json") := by
  by_cases h1 : f.logFormat = "text"
  · exact .inl ⟨_, .text h1⟩
  · by_cases h2 : f.logFormat = "json"
    · exact .inl ⟨_, .json h2⟩
    · exact .inr ⟨h1, h2⟩

theorem selectLogLevel_ok (f : Flags) (o : Outcomes) (lv : Nat)
    (h : o.parseLevel f.logLevel = .ok lv) (w : World) :
    selectLogLevel f o w = .ok () { w with logger := { w.logger with level := lv },
                                           trace := w.trace ++ [.parseLevel f.logLevel] } := by
  simp [selectLogLevel, h, emit, setLevel, bind_apply]

theorem selectLogLevel_error (f : Flags) (o : Outcomes) (e : String)
    (h : o.parseLevel f.logLevel = .error e) (w : World) :
    selectLogLevel f o w = .fatal { w with trace := w.trace ++
      [.parseLevel f.logLevel, .fatal e] } := by
  simp [selectLogLevel, h, emit, logFatal, bind_apply]

theorem startKmsg_eq (f : Flags) (w : World) :
    startKmsg f w = .ok () { w with trace := w.trace ++
      [.info "GCS started", .kmsgReadForever (kmsgLogLevelOf f.kmsgLogLevel)] } := by
  simp [startKmsg, emit, bind_apply]

theorem createRuntime_ok (o : Outcomes) (rt : Nat) (h : o.newRuntime baseLogPath = .ok rt)
    (w : World) :
    createRuntime o w = .ok rt { w with trace := w.trace ++ [.newRuntime baseLogPath] } := by
  simp [createRuntime, h, emit, bind_apply, pure_apply]

theorem createRuntime_error (o : Outcomes) (e : String)
    (h : o.newRuntime baseLogPath = .error e) (w : World) :
    createRuntime o w = .fatal { w with trace := w.trace ++
      [.newRuntime baseLogPath, .fatal "failed to initialize new runc runtime"] } := by
  simp [createRuntime, h, emit, logFatal, bind_apply]

theorem buildBridge_eq (f : Flags) (rt : Nat) (w : World) :
    buildBridge f rt w = .ok ⟨w.nextObj, f.v4⟩
      { w with nextObj := w.nextObj + 1, trace := w.trace ++ bridgeEvents f rt w.nextObj } := by
  simp [buildBridge, bridgeEvents, newBridgeMux, emit, assignHandlers, bind_apply]

theorem selectStreams_std (f : Flags) (o : Outcomes) (h : f.useInOutErr = true) (w : World) :
    selectStreams f o w = .ok (.stdin, .stdout) w := by
  simp [selectStreams, h, pure_apply]

theorem selectStreams_ok (f : Flags) (o : Outcomes) (c : Nat) (h : f.useInOutErr = false)
    (hd : o.dial commandPort = .ok c) (w : World) :
    selectStreams f o w = .ok (.conn c, .conn c)
      { w with trace := w.trace ++ [.dial commandPort] } := by
  simp [selectStreams, h, hd, emit, bind_apply, pure_apply]

theorem selectStreams_error (f : Flags) (o : Outcomes) (e : String) (h : f.useInOutErr = false)
    (hd : o.dial commandPort = .error e) (w : World) :
    selectStreams f o w = .fatal { w with trace := w.trace ++
      [.dial commandPort, .fatal "failed to dial host vsock connection"] } := by
  simp [selectStreams, h, hd, emit, logFatal, bind_apply]

theorem serve_ok (o : Outcomes) (b : Bridge) (i u : Stream) (h : o.listenAndServe b i u = none)
    (w : World) :
    serve o b i u w = .ok () { w with trace := w.trace ++ [.listenAndServe b i u] } := by
  simp [serve, h, emit, bind_apply, pure_apply]

theorem serve_error (o : Outcomes) (b : Bridge) (i u : Stream) (e : String)
    (h : o.listenAndServe b i u = some e) (w : World) :
    serve o b i u w = .fatal { w with trace := w.trace ++
      [.listenAndServe b i u, .fatal "failed to serve gcs service"] } := by
  simp [serve, h, emit, logFatal, bind_apply]

/-- Every run of lines 38-112 from the start state is one of the seven. -/
theorem setup_run (f : Flags) (o : Outcomes) : SetupRun f o (setup f o World.start) := by
  rcases openLogFile_cases f o with ⟨out, h1⟩ | ⟨h1, e, h2⟩
  swap
  · have h : setup f o World.start = .fatal ⟨stdLogger, 0,
        tracingEvents f ++ [.openFile f.logFile, .fatal "failed to create log file"]⟩ := by
      simp [setup, bind_apply, enableTracing_eq, openLogFile_error f o e h1 h2, World.start]
    rw [h]
    exact .openFailed e h1 h2
  rcases selectLogFormat_cases f with ⟨fm, h2⟩ | ⟨h2, h3⟩
  swap
  · have h : setup f o World.start = .fatal ⟨⟨out, .text, 4⟩, 0,
        tracingEvents f ++ openEvents f ++ [.fatal "unknown log-format"]⟩ := by
      simp [setup, bind_apply, enableTracing_eq, openLogFile_eq f o out h1,
        selectLogFormat_error f h2 h3, World.start, stdLogger]
    rw [h]
    exact .formatUnknown out h1 h2 h3
  cases h3 : o.parseLevel f.logLevel with
  | error e =>
    have h : setup f o World.start = .fatal ⟨⟨out, fm, 4⟩, 0,
        tracingEvents f ++ openEvents f ++ [.parseLevel f.logLevel, .fatal e]⟩ := by
      simp [setup, bind_apply, enableTracing_eq, openLogFile_eq f o out h1,
        selectLogFormat_eq f fm h2, selectLogLevel_error f o e h3, World.start, stdLogger]
    rw [h]
    exact .levelFailed out fm e h1 h2 h3
  | ok lv =>
    cases h4 : o.newRuntime baseLogPath with
    | error e =>
      have h : setup f o World.start = .fatal ⟨⟨out, fm, lv⟩, 0,
          tracingEvents f ++ openEvents f ++ bootEvents f ++
            [.fatal "failed to initialize new runc runtime"]⟩ := by
        simp [setup, bind_apply, enableTracing_eq, openLogFile_eq f o out h1,
          selectLogFormat_eq f fm h2, selectLogLevel_ok f o lv h3, startKmsg_eq,
          createRuntime_error o e h4, World.start, stdLogger, bootEvents]
      rw [h]
      exact .runtimeFailed out fm lv e h1 h2 h3 h4
    | ok rt =>
      cases h5 : f.useInOutErr with
      | true =>
        have h : setup f o World.start = .ok (⟨0, f.v4⟩, .stdin, .stdout) ⟨⟨out, fm, lv⟩, 1,
            tracingEvents f ++ openEvents f ++ bootEvents f ++ bridgeEvents f rt 0⟩ := by
          simp [setup, bind_apply, pure_apply, enableTracing_eq, openLogFile_eq f o out h1,
            selectLogFormat_eq f fm h2, selectLogLevel_ok f o lv h3, startKmsg_eq,
            createRuntime_ok o rt h4, buildBridge_eq, selectStreams_std f o h5,
            World.start, stdLogger, bootEvents]
        rw [h]
        exact .readyStd out fm lv rt h1 h2 h3 h4 h5
      | false =>
        cases h6 : o.dial commandPort with
        | error e =>
          have h : setup f o World.start = .fatal ⟨⟨out, fm, lv⟩, 1,
              tracingEvents f ++ openEvents f ++ bootEvents f ++ bridgeEvents f rt 0 ++
                [.dial commandPort, .fatal "failed to dial host vsock connection"]⟩ := by
            simp [setup, bind_apply, enableTracing_eq, openLogFile_eq f o out h1,
              selectLogFormat_eq f fm h2, selectLogLevel_ok f o lv h3, startKmsg_eq,
              createRuntime_ok o rt h4, buildBridge_eq, selectStreams_error f o e h5 h6,
              World.start, stdLogger, bootEvents]
          rw [h]
          exact .dialFailed out fm lv rt e h1 h2 h3 h4 h5 h6
        | ok c =>
          have h : setup f o World.start = .ok (⟨0, f.v4⟩, .conn c, .conn c) ⟨⟨out, fm, lv⟩, 1,
              tracingEvents f ++ openEvents f ++ bootEvents f ++ bridgeEvents f rt 0 ++
                [.dial commandPort]⟩ := by
            simp [setup, bind_apply, pure_apply, enableTracing_eq, openLogFile_eq f o out h1,
              selectLogFormat_eq f fm h2, selectLogLevel_ok f o lv h3, startKmsg_eq,
              createRuntime_ok o rt h4, buildBridge_eq, selectStreams_ok f o c h5 h6,
              World.start, stdLogger, bootEvents]
          rw [h]
          exact .readyConn out fm lv rt c h1 h2 h3 h4 h5 h6

/-- The function main is lines 38-112 followed by the call of line 114. -/
theorem main_eq (f : Flags) (o : Outcomes) :
    main f o = match setup f o World.start with
      | .ok (b, i, u) w => serve o b i u w
      | .fatal w => .fatal w := by
  simp only [main, mainProg, bind_apply]
  cases setup f o World.start with
  | ok x w => rfl
  | fatal w => rfl

/-- Every run of main is one of the three. -/
theorem main_run (f : Flags) (o : Outcomes) : MainRun f o (main f o) := by
  have h := setup_run f o
  rw [main_eq]
  cases hr : setup f o World.start with
  | fatal w =>
    rw [hr] at h
    exact .stopped w h
  | ok x w =>
    obtain ⟨b, i, u⟩ := x
    rw [hr] at h
    cases hs : o.listenAndServe b i u with
    | none =>
      simp only [serve_ok o b i u hs]
      exact .served b i u w h hs
    | some e =>
      simp only [serve_error o b i u e hs]
      exact .serveFailed b i u w e h hs


/-! ## Process termination (C1) -/

/-- C1, counterexample: the claim that only a failed Dial or a failed
ListenAndServe ends main in a fatal exit is false.  In each of four runs main
exits with status 1 although Dial and ListenAndServe are never called and would
both have succeeded: the log file cannot be opened, the log format is unknown,
the log level does not parse, the runtime cannot be created. -/
theorem fatal_exit_without_transport_failure :
    ((main fileFlags openFails).exitCode = 1 ∧
      (main xmlFlags allOk).exitCode = 1 ∧
      (main defaultFlags levelFails).exitCode = 1 ∧
      (main defaultFlags runtimeFails).exitCode = 1) ∧
    (∀ r ∈ [main fileFlags openFails, main xmlFlags allOk, main defaultFlags levelFails,
        main defaultFlags runtimeFails],
      ∀ ev ∈ r.trace, ev.isDial = false ∧ ev.isServe = false) ∧
    (∀ o ∈ [openFails, allOk, levelFails, runtimeFails],
      o.dial commandPort = .ok 9 ∧ ∀ b i u, o.listenAndServe b i u = none) := by
  refine ⟨by decide, by decide, ?_⟩
  simp [openFails, allOk, levelFails, runtimeFails]

/-- C1, as amended: main ends in a fatal, non-zero exit exactly when one of
the six steps it checks fails on its way: the log file that was asked for
cannot be opened, the log format is neither "text" nor "json", the log level
does not parse, runc.NewRuntime returns an error, Dial returns an error (with
use-inouterr false), or the call of ListenAndServe that main made returned an
error. -/
theorem main_fatal_iff (f : Flags) (o : Outcomes) :
    (main f o).exitCode ≠ 0 ↔
      (f.logFile ≠ "" ∧ ∃ e, o.openFile f.logFile = .error e) ∨
      (f.logFormat ≠ "text" ∧ f.logFormat ≠ "json") ∨
      (∃ e, o.parseLevel f.logLevel = .error e) ∨
      (∃ e, o.newRuntime baseLogPath = .error e) ∨
      (f.useInOutErr = false ∧ ∃ e, o.dial commandPort = .error e) ∨
      (∃ b i u e, Event.listenAndServe b i u ∈ (main f o).trace ∧
        o.listenAndServe b i u = some e) := by
  have h := main_run f o
  generalize main f o = r at h ⊢
  rcases h with ⟨w, h⟩ | ⟨b, i, u, w, h, hs⟩ | ⟨b, i, u, w, e, h, hs⟩ <;>
    rcases h with ⟨e1, h1, h2⟩ | ⟨out, ho, h2, h3⟩ | ⟨out, fm, e1, ho, hf, h3⟩ |
      ⟨out, fm, lv, e1, ho, hf, h3, h4⟩ | ⟨out, fm, lv, rt, e1, ho, hf, h3, h4, h5, h6⟩ |
      ⟨out, fm, lv, rt, ho, hf, h3, h4, h5⟩ | ⟨out, fm, lv, rt, c, ho, hf, h3, h4, h5, h6⟩ <;>
    (try cases ho) <;> (try cases hf) <;> cases hv : f.v4 <;>
    simp_all [Res.trace, Res.world, Res.exitCode, tracingEvents, openEvents, bootEvents,
      bridgeEvents] <;>
    exact ⟨_, _, _, ⟨rfl, rfl, rfl⟩, _, hs⟩


/-! ## The streams of the bridge (C2, C3) -/

/-- C2: the flag use-inouterr alone selects the streams of the bridge.  In
every run that reaches the serving step, that is in which ListenAndServe is
called with some bridge b and streams i and u: with use-inouterr true the
streams are stdin and stdout and Dial is never called; with use-inouterr false
Dial is called exactly once, with port 0x40000000 = 1073741824, and both
streams are the one connection it returned.  ListenAndServe is called only
that once. -/
theorem streams_selected_by_useInOutErr (f : Flags) (o : Outcomes) (b : Bridge)
    (i u : Stream) (h : Event.listenAndServe b i u ∈ (main f o).trace) :
    (f.useInOutErr = true →
      i = .stdin ∧ u = .stdout ∧ (main f o).trace.filter Event.isDial = []) ∧
    (f.useInOutErr = false →
      ∃ c, o.dial 1073741824 = .ok c ∧ i = .conn c ∧ u = .conn c ∧
        (main f o).trace.filter Event.isDial = [.dial 1073741824]) ∧
    (main f o).trace.filter Event.isServe = [.listenAndServe b i u] ∧
    commandPort = 1073741824 := by
  have hr := main_run f o
  generalize main f o = r at hr h ⊢
  rcases hr with ⟨w, hr⟩ | ⟨b, i, u, w, hr, hs⟩ | ⟨b, i, u, w, e, hr, hs⟩ <;>
    rcases hr with ⟨e1, h1, h2⟩ | ⟨out, ho, h2, h3⟩ | ⟨out, fm, e1, ho, hf, h3⟩ |
      ⟨out, fm, lv, e1, ho, hf, h3, h4⟩ | ⟨out, fm, lv, rt, e1, ho, hf, h3, h4, h5, h6⟩ |
      ⟨out, fm, lv, rt, ho, hf, h3, h4, h5⟩ | ⟨out, fm, lv, rt, c, ho, hf, h3, h4, h5, h6⟩ <;>
    cases hv : f.v4 <;> by_cases hl : f.logFile = "" <;>
    simp_all [Res.trace, Res.world, tracingEvents, openEvents, bootEvents,
      bridgeEvents, commandPort, Event.isDial, Event.isServe]

/-- C2, witness: the default flags with every call succeeding. -/
theorem streams_selected_by_useInOutErr_witness :
    Event.listenAndServe ⟨0, false⟩ (.conn 9) (.conn 9) ∈ (main defaultFlags allOk).trace ∧
    (main defaultFlags allOk).trace.filter Event.isDial = [.dial 1073741824] :=
  ⟨by decide,
   by
    obtain ⟨c, _, _, _, h⟩ := (streams_selected_by_useInOutErr defaultFlags allOk ⟨0, false⟩
      (.conn 9) (.conn 9) (by decide)).2.1 rfl
    exact h⟩

/-- C3: the bridge is only served over an established stream.  With
use-inouterr false, if Dial on port 0x40000000 returns an error then main ends
in a fatal exit (status 1) and ListenAndServe is never called. -/
theorem dial_error_is_fatal (f : Flags) (o : Outcomes) (e : String)
    (h1 : f.useInOutErr = false) (h2 : o.dial 0x40000000 = .error e) :
    (main f o).exitCode = 1 ∧ ∀ ev ∈ (main f o).trace, ev.isServe = false := by
  have hr := main_run f o
  generalize main f o = r at hr ⊢
  rcases hr with ⟨w, hr⟩ | ⟨b, i, u, w, hr, hs⟩ | ⟨b, i, u, w, e, hr, hs⟩ <;>
    rcases hr with ⟨e1, h1, h2⟩ | ⟨out, ho, h2, h3⟩ | ⟨out, fm, e1, ho, hf, h3⟩ |
      ⟨out, fm, lv, e1, ho, hf, h3, h4⟩ | ⟨out, fm, lv, rt, e1, ho, hf, h3, h4, h5, h6⟩ |
      ⟨out, fm, lv, rt, ho, hf, h3, h4, h5⟩ | ⟨out, fm, lv, rt, c, ho, hf, h3, h4, h5, h6⟩ <;>
    cases hv : f.v4 <;> by_cases hl : f.logFile = "" <;>
    simp_all [Res.trace, Res.world, Res.exitCode, tracingEvents, openEvents, bootEvents,
      bridgeEvents, commandPort, Event.isServe]

/-- C3, witness: the default flags with a dial that fails. -/
theorem dial_error_is_fatal_witness :
    (defaultFlags.useInOutErr = false ∧
      dialFails.dial 0x40000000 = .error "connection refused") ∧
    (main defaultFlags dialFails).exitCode = 1 ∧
    ∀ ev ∈ (main defaultFlags dialFails).trace, ev.isServe = false :=
  ⟨⟨rfl, rfl⟩, dial_error_is_fatal defaultFlags dialFails "connection refused" rfl rfl⟩

/-! ## The v4 flag (C8) -/

/-- C8: the flag v4 alone enables the v4 protocol and tracing.  In every run,
a bridge that is served has EnableV4 equal to the flag, trace.ApplyConfig is
called if and only if the flag is true, and then with the sampler
AlwaysSample, and trace.RegisterExporter is called if and only if the flag is
true. -/
theorem v4_flag_alone (f : Flags) (o : Outcomes) :
    (∀ b i u, Event.listenAndServe b i u ∈ (main f o).trace → b.EnableV4 = f.v4) ∧
    (Event.applyConfig .alwaysSample ∈ (main f o).trace ↔ f.v4 = true) ∧
    (∀ s, Event.applyConfig s ∈ (main f o).trace → s = .alwaysSample) ∧
    (Event.registerExporter ∈ (main f o).trace ↔ f.v4 = true) := by
  have hr := main_run f o
  generalize main f o = r at hr ⊢
  rcases hr with ⟨w, hr⟩ | ⟨b, i, u, w, hr, hs⟩ | ⟨b, i, u, w, e, hr, hs⟩ <;>
    rcases hr with ⟨e1, h1, h2⟩ | ⟨out, ho, h2, h3⟩ | ⟨out, fm, e1, ho, hf, h3⟩ |
      ⟨out, fm, lv, e1, ho, hf, h3, h4⟩ | ⟨out, fm, lv, rt, e1, ho, hf, h3, h4, h5, h6⟩ |
      ⟨out, fm, lv, rt, ho, hf, h3, h4, h5⟩ | ⟨out, fm, lv, rt, c, ho, hf, h3, h4, h5, h6⟩ <;>
    cases hv : f.v4 <;> by_cases hl : f.logFile = "" <;>
    simp_all [Res.trace, Res.world, tracingEvents, openEvents, bootEvents, bridgeEvents]


/-! ## The log format (C6) and the log output (C7) -/

/-- C6: the flag log-format accepts exactly "text" and "json".  From any
state, the switch of lines 56-67 falls through if and only if the value is
exactly "text" or exactly "json"; for "text" it leaves the state, and so the
formatter, unchanged; for "json" it installs a JSON formatter whose timestamp
format is RFC3339Nano and changes nothing else; for any other value main ends
in a fatal exit without having called NewRuntime, Dial or ListenAndServe. -/
theorem logFormat_text_or_json (f : Flags) (o : Outcomes) (w : World) :
    ((∃ w1, selectLogFormat f w = .ok () w1) ↔
      (f.logFormat = "text" ∨ f.logFormat = "json")) ∧
    (f.logFormat = "text" → selectLogFormat f w = .ok () w) ∧
    (f.logFormat = "json" → selectLogFormat f w =
      .ok () { w with logger := { w.logger with
        formatter := .json "2006-01-02T15:04:05.999999999Z07:00" } }) ∧
    (f.logFormat ≠ "text" → f.logFormat ≠ "json" →
      (main f o).exitCode = 1 ∧
      ∀ ev ∈ (main f o).trace,
        ev.isNewRuntime = false ∧ ev.isDial = false ∧ ev.isServe = false) := by
  refine ⟨?_, ?_, ?_, ?_⟩
  · by_cases ht : f.logFormat = "text"
    · simp [selectLogFormat, ht, pure_apply]
    · by_cases hj : f.logFormat = "json"
      · simp [selectLogFormat, hj, setFormatter]
      · simp [selectLogFormat, ht, hj, logFatal]
  · intro ht
    simp [selectLogFormat, ht, pure_apply]
  · intro hj
    simp [selectLogFormat, hj, setFormatter, RFC3339Nano]
  · intro ht hj
    have hr := main_run f o
    generalize main f o = r at hr ⊢
    rcases hr with ⟨w, hr⟩ | ⟨b, i, u, w, hr, hs⟩ | ⟨b, i, u, w, e, hr, hs⟩ <;>
      rcases hr with ⟨e1, h1, h2⟩ | ⟨out, ho, h2, h3⟩ | ⟨out, fm, e1, ho, hf, h3⟩ |
        ⟨out, fm, lv, e1, ho, hf, h3, h4⟩ | ⟨out, fm, lv, rt, e1, ho, hf, h3, h4, h5, h6⟩ |
        ⟨out, fm, lv, rt, ho, hf, h3, h4, h5⟩ |
        ⟨out, fm, lv, rt, c, ho, hf, h3, h4, h5, h6⟩ <;>
      (try cases hf) <;> (try contradiction) <;>
      cases hv : f.v4 <;> by_cases hl : f.logFile = "" <;>
      simp_all [Res.trace, Res.world, Res.exitCode, tracingEvents, openEvents,
        Event.isNewRuntime, Event.isDial, Event.isServe]

/-- C6, witness: the value "xml" is refused before the runtime is created. -/
theorem logFormat_text_or_json_witness :
    (xmlFlags.logFormat ≠ "text" ∧ xmlFlags.logFormat ≠ "json") ∧
    (main xmlFlags allOk).exitCode = 1 ∧
    ∀ ev ∈ (main xmlFlags allOk).trace,
      ev.isNewRuntime = false ∧ ev.isDial = false ∧ ev.isServe = false :=
  ⟨⟨by decide, by decide⟩,
   (logFormat_text_or_json xmlFlags allOk World.start).2.2.2 (by decide) (by decide)⟩

/-- C7: the code against its own usage text.  Line 25 documents use-inouterr
as "use stdin/stdout for bridge communication and stderr for logging".  With
use-inouterr true and a log file that opens, lines 38-112 end ready to call
ListenAndServe on stdin and stdout while the log output is that file, not
stderr; main then makes that call. -/
theorem log_output_is_file_when_serving :
    stdFileFlags.useInOutErr = true ∧
    (∃ w, setup stdFileFlags allOk World.start = .ok (⟨0, false⟩, .stdin, .stdout) w ∧
      w.logger.output = .file 3 ∧ w.logger.output ≠ .stderr) ∧
    Event.listenAndServe ⟨0, false⟩ .stdin .stdout ∈ (main stdFileFlags allOk).trace := by
  refine ⟨rfl, ⟨_, rfl, rfl, by decide⟩, by decide⟩

/-- What lines 44-54 and 96-100 do together: with use-inouterr true, at the
moment ListenAndServe is called (the state w in which lines 38-112 end) the
streams are stdin and stdout, and the log output is stderr when the flag
logfile is empty; when the flag is not empty the log output is the file that
was opened for it. -/
theorem log_output_when_serving (f : Flags) (o : Outcomes) (b : Bridge) (i u : Stream)
    (w : World) (hu : f.useInOutErr = true)
    (h : setup f o World.start = .ok (b, i, u) w) :
    main f o = serve o b .stdin .stdout w ∧ i = .stdin ∧ u = .stdout ∧
    (f.logFile = "" → w.logger.output = .stderr) ∧
    (f.logFile ≠ "" → ∃ hd, o.openFile f.logFile = .ok hd ∧ w.logger.output = .file hd) := by
  have hm := main_eq f o
  have hr := setup_run f o
  rw [h] at hr hm
  simp only at hm
  rcases hr with ⟨e1, h1, h2⟩ | ⟨out, ho, h2, h3⟩ | ⟨out, fm, e1, ho, hf, h3⟩ |
    ⟨out, fm, lv, e1, ho, hf, h3, h4⟩ | ⟨out, fm, lv, rt, e1, ho, hf, h3, h4, h5, h6⟩ |
    ⟨out, fm, lv, rt, ho, hf, h3, h4, h5⟩ | ⟨out, fm, lv, rt, c, ho, hf, h3, h4, h5, h6⟩
  · cases ho <;> simp_all
  · simp_all

/-- An instance: the bridge on stdin and stdout with the default, empty
logfile logs to stderr. -/
theorem log_output_when_serving_witness :
    (stdFlags.useInOutErr = true ∧ stdFlags.logFile = "") ∧
    (setup stdFlags allOk World.start).world.logger.output = .stderr :=
  ⟨⟨rfl, rfl⟩,
   (log_output_when_serving stdFlags allOk ⟨0, false⟩ .stdin .stdout
     (setup stdFlags allOk World.start).world rfl rfl).2.2.2.1 rfl⟩


/-! ## The handler registry (C4) -/

/-- At most one mux is constructed, and one exactly when line 88 is reached. -/
theorem mux_count (f : Flags) (o : Outcomes) :
    ((main f o).trace.filter Event.isNewMux).length ≤ 1 ∧
    (((main f o).trace.filter Event.isNewMux).length = 1 ↔
      (LoggingOk f o ∧ ∃ rt, o.newRuntime baseLogPath = .ok rt)) := by
  have hr := main_run f o
  generalize main f o = r at hr ⊢
  rcases hr with ⟨w, hr⟩ | ⟨b, i, u, w, hr, hs⟩ | ⟨b, i, u, w, e, hr, hs⟩ <;>
    rcases hr with ⟨e1, h1, h2⟩ | ⟨out, ho, h2, h3⟩ | ⟨out, fm, e1, ho, hf, h3⟩ |
      ⟨out, fm, lv, e1, ho, hf, h3, h4⟩ | ⟨out, fm, lv, rt, e1, ho, hf, h3, h4, h5, h6⟩ |
      ⟨out, fm, lv, rt, ho, hf, h3, h4, h5⟩ | ⟨out, fm, lv, rt, c, ho, hf, h3, h4, h5, h6⟩ <;>
    (try cases ho) <;> (try cases hf) <;> cases hv : f.v4 <;>
    simp_all [Res.trace, Res.world, tracingEvents, openEvents, bootEvents, bridgeEvents,
      LoggingOk, Event.isNewMux]

/-- AssignHandlers gets the mux of the bridge, and the served bridge is the
one it was called on. -/
theorem assign_uses_the_mux (f : Flags) (o : Outcomes) :
    (∀ b m, Event.assignHandlers b m ∈ (main f o).trace →
      b.Handler = m ∧ Event.newBridgeMux m ∈ (main f o).trace) ∧
    (∀ b i u, Event.listenAndServe b i u ∈ (main f o).trace →
      Event.assignHandlers b b.Handler ∈ (main f o).trace) := by
  have hr := main_run f o
  generalize main f o = r at hr ⊢
  rcases hr with ⟨w, hr⟩ | ⟨b, i, u, w, hr, hs⟩ | ⟨b, i, u, w, e, hr, hs⟩ <;>
    rcases hr with ⟨e1, h1, h2⟩ | ⟨out, ho, h2, h3⟩ | ⟨out, fm, e1, ho, hf, h3⟩ |
      ⟨out, fm, lv, e1, ho, hf, h3, h4⟩ | ⟨out, fm, lv, rt, e1, ho, hf, h3, h4, h5, h6⟩ |
      ⟨out, fm, lv, rt, ho, hf, h3, h4, h5⟩ | ⟨out, fm, lv, rt, c, ho, hf, h3, h4, h5, h6⟩ <;>
    cases hv : f.v4 <;> by_cases hl : f.logFile = "" <;>
    simp_all [Res.trace, Res.world, tracingEvents, openEvents, bootEvents, bridgeEvents]

/-- AssignHandlers is called at most once. -/
theorem assign_count (f : Flags) (o : Outcomes) :
    ((main f o).trace.filter Event.isAssign).length ≤ 1 := by
  have hr := main_run f o
  generalize main f o = r at hr ⊢
  rcases hr with ⟨w, hr⟩ | ⟨b, i, u, w, hr, hs⟩ | ⟨b, i, u, w, e, hr, hs⟩ <;>
    rcases hr with ⟨e1, h1, h2⟩ | ⟨out, ho, h2, h3⟩ | ⟨out, fm, e1, ho, hf, h3⟩ |
      ⟨out, fm, lv, e1, ho, hf, h3, h4⟩ | ⟨out, fm, lv, rt, e1, ho, hf, h3, h4, h5, h6⟩ |
      ⟨out, fm, lv, rt, ho, hf, h3, h4, h5⟩ | ⟨out, fm, lv, rt, c, ho, hf, h3, h4, h5, h6⟩ <;>
    cases hv : f.v4 <;> by_cases hl : f.logFile = "" <;>
    simp only [Res.trace, Res.world, tracingEvents, openEvents, bootEvents, bridgeEvents,
      hv, hl, Bool.false_eq_true, if_true, if_false, List.cons_append, List.nil_append,
      List.append_assoc, List.takeWhile, List.dropWhile, List.filter, Event.isAssign,
      Bool.not_false, Bool.not_true] <;>
    simp

/-- Neither Dial nor ListenAndServe is called before AssignHandlers. -/
theorem nothing_before_assign (f : Flags) (o : Outcomes) :
    ∀ ev ∈ (main f o).trace.takeWhile (fun e => !e.isAssign),
      ev.isServe = false ∧ ev.isDial = false := by
  have hr := main_run f o
  generalize main f o = r at hr ⊢
  rcases hr with ⟨w, hr⟩ | ⟨b, i, u, w, hr, hs⟩ | ⟨b, i, u, w, e, hr, hs⟩ <;>
    rcases hr with ⟨e1, h1, h2⟩ | ⟨out, ho, h2, h3⟩ | ⟨out, fm, e1, ho, hf, h3⟩ |
      ⟨out, fm, lv, e1, ho, hf, h3, h4⟩ | ⟨out, fm, lv, rt, e1, ho, hf, h3, h4, h5, h6⟩ |
      ⟨out, fm, lv, rt, ho, hf, h3, h4, h5⟩ | ⟨out, fm, lv, rt, c, ho, hf, h3, h4, h5, h6⟩ <;>
    cases hv : f.v4 <;> by_cases hl : f.logFile = "" <;>
    simp only [Res.trace, Res.world, tracingEvents, openEvents, bootEvents, bridgeEvents,
      hv, hl, Bool.false_eq_true, if_true, if_false, List.cons_append, List.nil_append,
      List.append_assoc, List.takeWhile, List.dropWhile, List.filter, Event.isAssign,
      Bool.not_false, Bool.not_true] <;>
    simp [Event.isServe, Event.isDial]

/-- AssignHandlers is not called once ListenAndServe has been called. -/
theorem nothing_after_serve (f : Flags) (o : Outcomes) :
    ∀ ev ∈ (main f o).trace.dropWhile (fun e => !e.isServe), ev.isAssign = false := by
  have hr := main_run f o
  generalize main f o = r at hr ⊢
  rcases hr with ⟨w, hr⟩ | ⟨b, i, u, w, hr, hs⟩ | ⟨b, i, u, w, e, hr, hs⟩ <;>
    rcases hr with ⟨e1, h1, h2⟩ | ⟨out, ho, h2, h3⟩ | ⟨out, fm, e1, ho, hf, h3⟩ |
      ⟨out, fm, lv, e1, ho, hf, h3, h4⟩ | ⟨out, fm, lv, rt, e1, ho, hf, h3, h4, h5, h6⟩ |
      ⟨out, fm, lv, rt, ho, hf, h3, h4, h5⟩ | ⟨out, fm, lv, rt, c, ho, hf, h3, h4, h5, h6⟩ <;>
    cases hv : f.v4 <;> by_cases hl : f.logFile = "" <;>
    simp only [Res.trace, Res.world, tracingEvents, openEvents, bootEvents, bridgeEvents,
      hv, hl, Bool.false_eq_true, if_true, if_false, List.cons_append, List.nil_append,
      List.append_assoc, List.takeWhile, List.dropWhile, List.filter, Event.isServe,
      Bool.not_false, Bool.not_true] <;>
    simp [Event.isAssign]

/-- C4, counterexample: not every execution of main constructs exactly one
mux.  With an unknown log format main stops at line 66 and constructs none. -/
theorem no_mux_when_main_stops_early :
    (main xmlFlags allOk).trace = [.fatal "unknown log-format"] ∧
    ((main xmlFlags allOk).trace.filter Event.isNewMux).length = 0 ∧
    ((main xmlFlags allOk).trace.filter Event.isNewMux).length ≠ 1 := by
  refine ⟨by decide, by decide, by decide⟩

/-- C4, as amended: handlers are registered once at startup, before any
serving.  In every execution of main at most one mux is constructed, and
exactly one if and only if the logging set-up and runc.NewRuntime succeed (an
execution that ends before line 88 constructs none); the mux passed to
AssignHandlers was constructed by main and is the one stored as Handler of the
bridge, and the bridge that is served is the one AssignHandlers was called on;
AssignHandlers is called at most once; no call of ListenAndServe or of Dial
precedes it; and no call of AssignHandlers follows a call of ListenAndServe. -/
theorem handlers_registered_once (f : Flags) (o : Outcomes) :
    ((main f o).trace.filter Event.isNewMux).length ≤ 1 ∧
    (((main f o).trace.filter Event.isNewMux).length = 1 ↔
      (LoggingOk f o ∧ ∃ rt, o.newRuntime baseLogPath = .ok rt)) ∧
    (∀ b m, Event.assignHandlers b m ∈ (main f o).trace →
      b.Handler = m ∧ Event.newBridgeMux m ∈ (main f o).trace) ∧
    (∀ b i u, Event.listenAndServe b i u ∈ (main f o).trace →
      Event.assignHandlers b b.Handler ∈ (main f o).trace) ∧
    ((main f o).trace.filter Event.isAssign).length ≤ 1 ∧
    (∀ ev ∈ (main f o).trace.takeWhile (fun e => !e.isAssign),
      ev.isServe = false ∧ ev.isDial = false) ∧
    (∀ ev ∈ (main f o).trace.dropWhile (fun e => !e.isServe), ev.isAssign = false) :=
  ⟨(mux_count f o).1, (mux_count f o).2, (assign_uses_the_mux f o).1,
    (assign_uses_the_mux f o).2, assign_count f o, nothing_before_assign f o,
    nothing_after_serve f o⟩

/-! ## Logging and control flow (C5) -/

/-- Once the logging set-up has gone through, whether ListenAndServe is called
depends only on the runtime, the flag use-inouterr and the dial. -/
theorem served_iff (f : Flags) (o : Outcomes) (hl : LoggingOk f o) :
    (∃ ev ∈ (main f o).trace, ev.isServe = true) ↔
      ((∃ rt, o.newRuntime baseLogPath = .ok rt) ∧
        (f.useInOutErr = true ∨ ∃ c, o.dial commandPort = .ok c)) := by
  have hr := main_run f o
  generalize main f o = r at hr ⊢
  rcases hr with ⟨w, hr⟩ | ⟨b, i, u, w, hr, hs⟩ | ⟨b, i, u, w, e, hr, hs⟩ <;>
    rcases hr with ⟨e1, h1, h2⟩ | ⟨out, ho, h2, h3⟩ | ⟨out, fm, e1, ho, hf, h3⟩ |
      ⟨out, fm, lv, e1, ho, hf, h3, h4⟩ | ⟨out, fm, lv, rt, e1, ho, hf, h3, h4, h5, h6⟩ |
      ⟨out, fm, lv, rt, ho, hf, h3, h4, h5⟩ | ⟨out, fm, lv, rt, c, ho, hf, h3, h4, h5, h6⟩ <;>
    cases hv : f.v4 <;> by_cases hl : f.logFile = "" <;>
    simp_all [Res.trace, Res.world, tracingEvents, openEvents, bootEvents, bridgeEvents,
      LoggingOk, Event.isServe]

/-- Once the logging set-up has gone through, main returns normally exactly
when the runtime is created, the streams are obtained and serving returns
nil. -/
theorem exit_zero_iff (f : Flags) (o : Outcomes) (hl : LoggingOk f o) :
    (main f o).exitCode = 0 ↔
      ((∃ rt, o.newRuntime baseLogPath = .ok rt) ∧
        ((f.useInOutErr = true ∧ o.listenAndServe ⟨0, f.v4⟩ .stdin .stdout = none) ∨
         (f.useInOutErr = false ∧ ∃ c, o.dial commandPort = .ok c ∧
            o.listenAndServe ⟨0, f.v4⟩ (.conn c) (.conn c) = none))) := by
  have hr := main_run f o
  generalize main f o = r at hr ⊢
  rcases hr with ⟨w, hr⟩ | ⟨b, i, u, w, hr, hs⟩ | ⟨b, i, u, w, e, hr, hs⟩ <;>
    rcases hr with ⟨e1, h1, h2⟩ | ⟨out, ho, h2, h3⟩ | ⟨out, fm, e1, ho, hf, h3⟩ |
      ⟨out, fm, lv, e1, ho, hf, h3, h4⟩ | ⟨out, fm, lv, rt, e1, ho, hf, h3, h4, h5, h6⟩ |
      ⟨out, fm, lv, rt, ho, hf, h3, h4, h5⟩ | ⟨out, fm, lv, rt, c, ho, hf, h3, h4, h5, h6⟩ <;>
    (try cases ho) <;> (try cases hf) <;>
    simp_all [Res.exitCode, LoggingOk]

/-- The exit status is 0 or 1. -/
theorem exitCode_le_one {α : Type} (r : Res α) : r.exitCode = 0 ∨ r.exitCode = 1 := by
  cases r <;> simp [Res.exitCode]

/-- C5, counterexample: two runs whose flags differ only in logfile and whose
outcomes differ only in the opening of the log file.  The first serves the
bridge and returns with status 0; in the second the log file cannot be opened
and main ends in a fatal exit without ever calling ListenAndServe. -/
theorem log_file_failure_stops_the_agent :
    (stdFlags.kmsgLogLevel = stdFileFlags.kmsgLogLevel ∧
      stdFlags.useInOutErr = stdFileFlags.useInOutErr ∧ stdFlags.v4 = stdFileFlags.v4 ∧
      stdFlags.logFormat = stdFileFlags.logFormat ∧
      stdFlags.logLevel = stdFileFlags.logLevel) ∧
    (allOk.parseLevel = openFails.parseLevel ∧ allOk.newRuntime = openFails.newRuntime ∧
      allOk.dial = openFails.dial ∧ allOk.listenAndServe = openFails.listenAndServe) ∧
    (Event.listenAndServe ⟨0, false⟩ .stdin .stdout ∈ (main stdFlags allOk).trace ∧
      (main stdFlags allOk).exitCode = 0) ∧
    ((∀ ev ∈ (main stdFileFlags openFails).trace, ev.isServe = false) ∧
      (main stdFileFlags openFails).exitCode = 1) := by
  refine ⟨by decide, ⟨rfl, rfl, rfl, rfl⟩, by decide, by decide⟩

/-- C5, as amended: logging does not steer main once its set-up has gone
through.  For two runs that agree on the flags use-inouterr and v4 and on the
outcomes of runtime creation, dial and serve, and in both of which the logging
set-up of lines 44-74 succeeds (the log file, if asked for, opens, the log
format is "text" or "json", the log level parses), ListenAndServe is called in
one if and only if it is called in the other, and the exit status is the
same. -/
theorem logging_does_not_steer (f1 f2 : Flags) (o1 o2 : Outcomes)
    (hu : f1.useInOutErr = f2.useInOutErr) (hv : f1.v4 = f2.v4)
    (hr : o1.newRuntime = o2.newRuntime) (hd : o1.dial = o2.dial)
    (hs : o1.listenAndServe = o2.listenAndServe)
    (h1 : LoggingOk f1 o1) (h2 : LoggingOk f2 o2) :
    ((∃ ev ∈ (main f1 o1).trace, ev.isServe = true) ↔
      (∃ ev ∈ (main f2 o2).trace, ev.isServe = true)) ∧
    (main f1 o1).exitCode = (main f2 o2).exitCode := by
  refine ⟨?_, ?_⟩
  · rw [served_iff f1 o1 h1, served_iff f2 o2 h2, hu, hr, hd]
  · have e1 := exit_zero_iff f1 o1 h1
    have e2 := exit_zero_iff f2 o2 h2
    rw [hu, hv, hr, hd, hs] at e1
    have e12 : (main f1 o1).exitCode = 0 ↔ (main f2 o2).exitCode = 0 := e1.trans e2.symm
    rcases exitCode_le_one (main f1 o1) with a | a <;>
      rcases exitCode_le_one (main f2 o2) with b | b <;> simp_all

/-- C5, witness: the text and the JSON format with different log levels; both
runs serve and return. -/
theorem logging_does_not_steer_witness :
    (LoggingOk defaultFlags allOk ∧ LoggingOk jsonFileFlags allOk) ∧
    (main defaultFlags allOk).exitCode = (main jsonFileFlags allOk).exitCode :=
  have h1 : LoggingOk defaultFlags allOk := ⟨.inl rfl, .inl rfl, 5, rfl⟩
  have h2 : LoggingOk jsonFileFlags allOk := ⟨.inr ⟨3, rfl⟩, .inr rfl, 5, rfl⟩
  ⟨⟨h1, h2⟩,
    (logging_does_not_steer defaultFlags jsonFileFlags allOk allOk rfl rfl rfl rfl rfl h1 h2).2⟩

end Gcs
